import Mathlib

/-!
Verification development for the `ai-software-factory` agent-orchestration
backend.  The definitions below are a shallow embedding of
`backend/agents/crew.py` (the `ProjectCrew` phase orchestrator and the
`AgentFactory`), `backend/agents/base.py` (the abstract agent interface) and
the eight concrete agents of `backend/agents/development.py` and
`backend/agents/operations.py`.

Modelling conventions:
* Python objects stored in the shared context dictionary are modelled by the
  inductive `PyObj`; Python `str(...)` rendering used by the f-string task
  templates is modelled by `pyStr`.
* The context dictionary is an insertion-ordered association list `Ctx` with
  Python assignment semantics (`ctxSet`: replace in place, else append).
* Exceptions are modelled with `Except`: the external `crew.kickoff()` call
  is an oracle that either returns a result object or raises (carrying the
  `str(e)` message); an agent's `get_tasks` may likewise raise, because
  `BaseAgent.get_tasks` is abstract and `execute_phase` calls it outside its
  `try` block.  An escaping exception is an `Except.error` carrying the
  message together with the orchestrator state at unwind time.
-/

namespace AISF

/-- Python values as they occur in the project context: strings, ints,
booleans, dictionaries with string keys, and lists. -/
inductive PyObj where
  | pstr : String → PyObj
  | pint : Int → PyObj
  | pbool : Bool → PyObj
  | pdict : List (String × PyObj) → PyObj
  | plist : List PyObj → PyObj
deriving Repr

mutual

/-- Python `repr` of a value (as used for values nested in dicts/lists). -/
def pyRepr : PyObj → String
  | .pstr s => "\x27" ++ s ++ "\x27"
  | .pint n => toString n
  | .pbool b => cond b "True" "False"
  | .pdict kvs => "\x7b" ++ pyReprKVs kvs ++ "\x7d"
  | .plist xs => "[" ++ pyReprItems xs ++ "]"

/-- Renders the comma-separated `key: value` entries of a Python dict. -/
def pyReprKVs : List (String × PyObj) → String
  | [] => ""
  | [(k, v)] => "\x27" ++ k ++ "\x27: " ++ pyRepr v
  | (k, v) :: rest => "\x27" ++ k ++ "\x27: " ++ pyRepr v ++ ", " ++ pyReprKVs rest

/-- Renders the comma-separated items of a Python list. -/
def pyReprItems : List PyObj → String
  | [] => ""
  | [x] => pyRepr x
  | x :: rest => pyRepr x ++ ", " ++ pyReprItems rest

end

/-- Python `str(...)` as applied by f-string interpolation: a string renders
as itself, every other value renders as its `repr`. -/
def pyStr : PyObj → String
  | .pstr s => s
  | x => pyRepr x

/-- The shared project context: an insertion-ordered string-keyed dictionary
(`self.context` of `ProjectCrew`). -/
def Ctx := List (String × PyObj)

/-- Python `dict` lookup (`ctx[k]` as an `Option`): first binding wins. -/
def ctxLookup : Ctx → String → Option PyObj
  | [], _ => none
  | (k, v) :: rest, key => if k = key then some v else ctxLookup rest key

/-- Python `dict.get(key, default)`. -/
def ctxGetD (ctx : Ctx) (key : String) (dflt : PyObj) : PyObj :=
  (ctxLookup ctx key).getD dflt

/-- Python `dict` assignment `ctx[key] = v`: replaces the existing binding in
place, otherwise appends at the end (insertion order preserved). -/
def ctxSet : Ctx → String → PyObj → Ctx
  | [], key, v => [(key, v)]
  | (k, w) :: rest, key, v =>
      if k = key then (key, v) :: rest else (k, w) :: ctxSet rest key v

/-- The six project phases of `ProjectPhase` in `crew.py`. -/
inductive ProjectPhase where
  | planning
  | architecture
  | development
  | testing
  | deployment
  | documentation
deriving DecidableEq, Repr

/-- The `.value` string of each `ProjectPhase` member. -/
def ProjectPhase.value : ProjectPhase → String
  | .planning => "planning"
  | .architecture => "architecture"
  | .development => "development"
  | .testing => "testing"
  | .deployment => "deployment"
  | .documentation => "documentation"

/-- The eight agent roster keys of `ProjectCrew.__init__` / `AgentFactory`. -/
inductive AgentKey where
  | architect
  | backend
  | frontend
  | database
  | devops
  | qa
  | security
  | writer
deriving DecidableEq, Repr

/-- A CrewAI `Task` as constructed by the agents: a description rendered from
an f-string template, an expected-output string, and the owning agent. -/
structure Task where
  description : String
  expected_output : String
  agent : AgentKey
deriving DecidableEq, Repr

/-- The `CrewResult` dataclass of `crew.py`. -/
structure CrewResult where
  phase : ProjectPhase
  status : String
  outputs : List (String × PyObj)
  errors : List String
deriving Repr

/-- The mutable state of a `ProjectCrew` instance: the shared context and the
results log. -/
structure CrewState where
  context : Ctx
  results : List CrewResult

/-- Embeds `ProjectCrew.__init__`: fresh context, empty results log. -/
def freshCrew (project_context : Ctx) : CrewState :=
  { context := project_context, results := [] }

/-- Embeds `ArchitectAgent.get_tasks` (`development.py`): two tasks built from the
`project_name` / `requirements` context entries with defaults. -/
def ArchitectAgent.get_tasks (context : Ctx) : List Task :=
  let project_name := pyStr (ctxGetD context "project_name" (.pstr "Unknown Project"))
  let requirements := pyStr (ctxGetD context "requirements" (.pdict []))
  [ { description := "
                Analyze the requirements for " ++ project_name ++ " and create a comprehensive
                system architecture document that includes:

                1. High-level system overview
                2. Component diagram with clear boundaries
                3. Data flow between components
                4. Technology stack recommendations with justifications
                5. Scalability considerations
                6. Security architecture
                7. Integration patterns

                Requirements: " ++ requirements ++ "
                ",
      expected_output := "A detailed architecture document in markdown format with diagrams described in ASCII art or mermaid syntax.",
      agent := .architect },
    { description := "
                Based on the architecture for " ++ project_name ++ ", create detailed
                API specifications including:

                1. RESTful endpoint definitions
                2. Request/Response schemas
                3. Authentication/Authorization flows
                4. Rate limiting strategy
                5. Error handling patterns
                ",
      expected_output := "OpenAPI 3.0 specification in YAML format with all endpoints, schemas, and security definitions.",
      agent := .architect } ]

/-- Embeds `BackendDeveloperAgent.get_tasks` (`development.py`). -/
def BackendDeveloperAgent.get_tasks (context : Ctx) : List Task :=
  let project_name := pyStr (ctxGetD context "project_name" (.pstr "Unknown Project"))
  let architecture := pyStr (ctxGetD context "architecture" (.pdict []))
  let api_spec := pyStr (ctxGetD context "api_spec" (.pdict []))
  [ { description := "
                Implement the database models for " ++ project_name ++ " based on the
                architecture specification:

                Architecture: " ++ architecture ++ "

                Requirements:
                1. Use SQLAlchemy 2.0 with async support
                2. Include all necessary relationships
                3. Add appropriate indexes
                4. Include created_at, updated_at timestamps
                5. Implement soft delete where appropriate
                ",
      expected_output := "Complete SQLAlchemy model definitions in Python with all relationships, indexes, and constraints.",
      agent := .backend },
    { description := "
                Implement the REST API endpoints for " ++ project_name ++ " based on
                the API specification:

                API Spec: " ++ api_spec ++ "

                Requirements:
                1. Use FastAPI with async/await
                2. Include Pydantic schemas for validation
                3. Implement proper error handling
                4. Add authentication decorators
                5. Include OpenAPI documentation
                ",
      expected_output := "Complete FastAPI route implementations with all CRUD operations, validation, and documentation.",
      agent := .backend } ]

/-- Embeds `FrontendDeveloperAgent.get_tasks` (`development.py`). -/
def FrontendDeveloperAgent.get_tasks (context : Ctx) : List Task :=
  let project_name := pyStr (ctxGetD context "project_name" (.pstr "Unknown Project"))
  let design_spec := pyStr (ctxGetD context "design_spec" (.pdict []))
  let api_endpoints := pyStr (ctxGetD context "api_endpoints" (.plist []))
  [ { description := "
                Create the component architecture for " ++ project_name ++ ":

                Design Specification: " ++ design_spec ++ "

                Requirements:
                1. Define component hierarchy
                2. Plan state management strategy
                3. Design reusable component library
                4. Plan routing structure
                5. Define API integration layer
                ",
      expected_output := "Component architecture document with hierarchy diagram, state management plan, and component specifications.",
      agent := .frontend },
    { description := "
                Implement React components for " ++ project_name ++ " based on the
                component architecture:

                API Endpoints: " ++ api_endpoints ++ "

                Requirements:
                1. Use TypeScript with strict mode
                2. Implement with Next.js 14 app router
                3. Use TanStack Query for data fetching
                4. Style with Tailwind CSS
                5. Include loading and error states
                6. Ensure accessibility compliance
                ",
      expected_output := "Complete React/TypeScript component implementations with all required functionality and styling.",
      agent := .frontend } ]

/-- Embeds `DatabaseEngineerAgent.get_tasks` (`development.py`). -/
def DatabaseEngineerAgent.get_tasks (context : Ctx) : List Task :=
  let project_name := pyStr (ctxGetD context "project_name" (.pstr "Unknown Project"))
  let data_model := pyStr (ctxGetD context "data_model" (.pdict []))
  [ { description := "
                Design the database schema for " ++ project_name ++ ":

                Data Model: " ++ data_model ++ "

                Requirements:
                1. Define all tables with appropriate data types
                2. Establish primary and foreign keys
                3. Design indexes for common queries
                4. Plan partitioning strategy if needed
                5. Consider denormalization for read performance
                6. Include audit columns
                ",
      expected_output := "Complete database schema in SQL DDL format with all tables, indexes, constraints, and documentation.",
      agent := .database },
    { description := "
                Create Alembic migrations for " ++ project_name ++ ":

                Requirements:
                1. Initial schema migration
                2. Seed data migration
                3. Index creation migration
                4. Include rollback procedures
                ",
      expected_output := "Alembic migration files with upgrade and downgrade functions for all schema changes.",
      agent := .database } ]

/-- Embeds `DevOpsEngineerAgent.get_tasks` (`operations.py`): three tasks. -/
def DevOpsEngineerAgent.get_tasks (context : Ctx) : List Task :=
  let project_name := pyStr (ctxGetD context "project_name" (.pstr "Unknown Project"))
  let architecture := pyStr (ctxGetD context "architecture" (.pdict []))
  [ { description := "
                Create Docker configuration for " ++ project_name ++ ":

                Architecture: " ++ architecture ++ "

                Requirements:
                1. Multi-stage Dockerfile for each service
                2. Docker Compose for local development
                3. Optimize image sizes
                4. Include health checks
                5. Configure proper networking
                6. Set up volume mounts for persistence
                ",
      expected_output := "Complete Dockerfile and docker-compose.yml with all services, networks, and volumes configured.",
      agent := .devops },
    { description := "
                Create CI/CD pipeline for " ++ project_name ++ ":

                Requirements:
                1. GitHub Actions workflow
                2. Build and test stages
                3. Security scanning (SAST/DAST)
                4. Container image building and pushing
                5. Deployment to staging and production
                6. Rollback procedures
                ",
      expected_output := "Complete GitHub Actions workflow files with all stages, secrets management, and environment configurations.",
      agent := .devops },
    { description := "
                Create infrastructure as code for " ++ project_name ++ ":

                Requirements:
                1. Terraform modules for cloud resources
                2. Kubernetes manifests or Helm charts
                3. Network security groups
                4. Load balancer configuration
                5. Auto-scaling policies
                6. Monitoring and alerting setup
                ",
      expected_output := "Complete Terraform configurations and Kubernetes manifests for production deployment.",
      agent := .devops } ]

/-- Embeds `QAEngineerAgent.get_tasks` (`operations.py`): three tasks. -/
def QAEngineerAgent.get_tasks (context : Ctx) : List Task :=
  let project_name := pyStr (ctxGetD context "project_name" (.pstr "Unknown Project"))
  let requirements := pyStr (ctxGetD context "requirements" (.pdict []))
  [ { description := "
                Create test strategy for " ++ project_name ++ ":

                Requirements: " ++ requirements ++ "

                Include:
                1. Test pyramid structure
                2. Coverage targets for each layer
                3. Test environment requirements
                4. Data management strategy
                5. Performance testing approach
                6. Security testing scope
                ",
      expected_output := "Comprehensive test strategy document with detailed approach for each testing layer.",
      agent := .qa },
    { description := "
                Implement backend test suite for " ++ project_name ++ ":

                Requirements:
                1. Unit tests with pytest
                2. Integration tests for API endpoints
                3. Database tests with test fixtures
                4. Mock external dependencies
                5. Achieve 80%+ code coverage
                6. Include performance benchmarks
                ",
      expected_output := "Complete pytest test suite with fixtures, mocks, and configuration for CI integration.",
      agent := .qa },
    { description := "
                Implement frontend test suite for " ++ project_name ++ ":

                Requirements:
                1. Component tests with Jest/React Testing Library
                2. E2E tests with Playwright
                3. Visual regression tests
                4. Accessibility tests
                5. Performance budgets
                ",
      expected_output := "Complete frontend test suite with component tests, E2E scenarios, and CI configuration.",
      agent := .qa } ]

/-- Embeds `SecurityAnalystAgent.get_tasks` (`operations.py`): three tasks. -/
def SecurityAnalystAgent.get_tasks (context : Ctx) : List Task :=
  let project_name := pyStr (ctxGetD context "project_name" (.pstr "Unknown Project"))
  let architecture := pyStr (ctxGetD context "architecture" (.pdict []))
  [ { description := "
                Perform threat modeling for " ++ project_name ++ ":

                Architecture: " ++ architecture ++ "

                Requirements:
                1. Identify trust boundaries
                2. Apply STRIDE methodology
                3. Document threat scenarios
                4. Prioritize by risk level
                5. Recommend mitigations
                ",
      expected_output := "Threat model document with identified threats, risk ratings, and mitigation strategies.",
      agent := .security },
    { description := "
                Define security requirements for " ++ project_name ++ ":

                Requirements:
                1. Authentication mechanisms (OAuth2/OIDC)
                2. Authorization model (RBAC/ABAC)
                3. Data encryption (at rest and in transit)
                4. Input validation rules
                5. Audit logging requirements
                6. Compliance controls (GDPR, SOC2)
                ",
      expected_output := "Security requirements specification with implementation guidance for each control.",
      agent := .security },
    { description := "
                Create security testing plan for " ++ project_name ++ ":

                Requirements:
                1. SAST tool configuration
                2. DAST scanning scope
                3. Dependency vulnerability scanning
                4. Penetration testing scope
                5. Security regression tests
                ",
      expected_output := "Security testing plan with tool configurations, test cases, and CI integration.",
      agent := .security } ]

/-- Embeds `TechnicalWriterAgent.get_tasks` (`operations.py`): two tasks. -/
def TechnicalWriterAgent.get_tasks (context : Ctx) : List Task :=
  let project_name := pyStr (ctxGetD context "project_name" (.pstr "Unknown Project"))
  let api_spec := pyStr (ctxGetD context "api_spec" (.pdict []))
  [ { description := "
                Create API documentation for " ++ project_name ++ ":

                API Specification: " ++ api_spec ++ "

                Requirements:
                1. Getting started guide
                2. Authentication guide
                3. Endpoint reference with examples
                4. Error code reference
                5. Rate limiting documentation
                6. SDK examples (curl, Python, JavaScript)
                ",
      expected_output := "Complete API documentation in markdown format with examples, diagrams, and code samples.",
      agent := .writer },
    { description := "
                Create developer documentation for " ++ project_name ++ ":

                Requirements:
                1. Local development setup
                2. Architecture overview
                3. Code contribution guidelines
                4. Testing guide
                5. Deployment guide
                6. Troubleshooting guide
                ",
      expected_output := "Complete developer documentation enabling new developers to contribute to the project.",
      agent := .writer } ]

/-- The concrete agent roster of `ProjectCrew.__init__`: maps each roster key
to the `get_tasks` method of the agent instance stored under that key. -/
def defaultAgents : AgentKey → Ctx → List Task
  | .architect => ArchitectAgent.get_tasks
  | .backend => BackendDeveloperAgent.get_tasks
  | .frontend => FrontendDeveloperAgent.get_tasks
  | .database => DatabaseEngineerAgent.get_tasks
  | .devops => DevOpsEngineerAgent.get_tasks
  | .qa => QAEngineerAgent.get_tasks
  | .security => SecurityAnalystAgent.get_tasks
  | .writer => TechnicalWriterAgent.get_tasks

/-- The behaviour of the agent roster seen by `ProjectCrew.execute_phase`:
each roster key's `get_tasks` call either returns a task list or raises
(`BaseAgent.get_tasks` is abstract, so an implementation may throw). -/
def Roster := AgentKey → Ctx → Except String (List Task)

/-- The default roster of `ProjectCrew.__init__`: the eight concrete agents,
whose `get_tasks` implementations are total (they never raise). -/
def defaultRoster : Roster := fun key ctx => .ok (defaultAgents key ctx)

/-- The external `Crew(...).kickoff()` execution layer: given the phase's
agents and the combined task batch, it returns a raw result object or raises
an exception carrying its `str(e)` message. -/
def Kickoff := List AgentKey → List Task → Except String PyObj

/-- Embeds `ProjectCrew._get_phase_agents`: the fixed phase-to-agents table. -/
def ProjectCrew.get_phase_agents : ProjectPhase → List AgentKey
  | .planning => [.architect]
  | .architecture => [.architect, .database, .security]
  | .development => [.backend, .frontend, .database]
  | .testing => [.qa, .security]
  | .deployment => [.devops]
  | .documentation => [.writer]

/-- The task-collection loop of `execute_phase`
(`for agent in phase_agents: all_tasks.extend(agent.get_tasks(self.context))`):
agents are queried in list order against the same context snapshot, their
task lists concatenated; an exception from any `get_tasks` call propagates
(the loop runs outside the `try` block). -/
def ProjectCrew.collect_tasks (roster : Roster) (ctx : Ctx) :
    List AgentKey → Except String (List Task)
  | [] => .ok []
  | key :: rest =>
      match roster key ctx with
      | .error e => .error e
      | .ok tasks =>
          match ProjectCrew.collect_tasks roster ctx rest with
          | .error e => .error e
          | .ok more => .ok (tasks ++ more)

/-- Embeds `ProjectCrew._update_context`: only the `architecture` and `planning`
phases write back into the shared context (keys `architecture` / `api_spec`
respectively); every other phase leaves it untouched. -/
def ProjectCrew.update_context (phase : ProjectPhase) (result : PyObj) (ctx : Ctx) : Ctx :=
  if phase = .architecture then ctxSet ctx "architecture" result
  else if phase = .planning then ctxSet ctx "api_spec" result
  else ctx

/-- Embeds `ProjectCrew.execute_phase`.  An `Except.error (e, s)` value models an
exception escaping the call with message `e`, leaving the orchestrator in
state `s`; an `Except.ok (r, s)` value models a normal return of `r`.
Faithful control flow: the task-collection loop runs outside the `try`
block; an empty combined batch returns the `skipped` result early, before
the `self.results.append(crew_result)` line is reached; only the
`crew.kickoff()` call is guarded by `try`, and both the `completed` and the
`failed` result are appended to the results log. -/
def ProjectCrew.execute_phase (kickoff : Kickoff) (roster : Roster)
    (self : CrewState) (phase : ProjectPhase) :
    Except (String × CrewState) (CrewResult × CrewState) :=
  let phase_agents := ProjectCrew.get_phase_agents phase
  match ProjectCrew.collect_tasks roster self.context phase_agents with
  | .error e => .error (e, self)
  | .ok all_tasks =>
      if all_tasks = [] then
        .ok ({ phase := phase, status := "skipped", outputs := [],
               errors := ["No tasks defined for this phase"] }, self)
      else
        match kickoff phase_agents all_tasks with
        | .ok result =>
            let crew_result : CrewResult :=
              { phase := phase, status := "completed",
                outputs := [("result", result)], errors := [] }
            let self' : CrewState :=
              { self with context := ProjectCrew.update_context phase result self.context }
            .ok (crew_result, { self' with results := self'.results ++ [crew_result] })
        | .error e =>
            let crew_result : CrewResult :=
              { phase := phase, status := "failed", outputs := [], errors := [e] }
            .ok (crew_result, { self with results := self.results ++ [crew_result] })

/-- The fixed phase list of `ProjectCrew.execute_full_pipeline`. -/
def pipelinePhases : List ProjectPhase :=
  [.planning, .architecture, .development, .testing, .deployment, .documentation]

/-- The `for phase in phases` loop of `execute_full_pipeline`: runs
`execute_phase` on each phase in order and breaks out of the loop as soon as
a result has status `failed` (and only then); an exception from
`execute_phase` propagates. -/
def ProjectCrew.run_phases (kickoff : Kickoff) (roster : Roster)
    (self : CrewState) : List ProjectPhase → Except (String × CrewState) CrewState
  | [] => .ok self
  | phase :: rest =>
      match ProjectCrew.execute_phase kickoff roster self phase with
      | .error es => .error es
      | .ok (result, self') =>
          if result.status = "failed" then .ok self'
          else ProjectCrew.run_phases kickoff roster self' rest

/-- Embeds `ProjectCrew.execute_full_pipeline`: iterates the six phases and returns
`self.results` (the whole accumulated log). -/
def ProjectCrew.execute_full_pipeline (kickoff : Kickoff) (roster : Roster)
    (self : CrewState) : Except (String × CrewState) (List CrewResult × CrewState) :=
  match ProjectCrew.run_phases kickoff roster self pipelinePhases with
  | .error es => .error es
  | .ok self' => .ok (self'.results, self')

/-- Python `str.lower()` (ASCII, as used on the role names). -/
def pyLower (s : String) : String := String.mk (s.data.map Char.toLower)

/-- The `agent_map` dictionary of `AgentFactory.create_agent`. -/
def AgentFactory.agent_map : List (String × AgentKey) :=
  [("architect", .architect), ("backend", .backend), ("frontend", .frontend),
   ("database", .database), ("devops", .devops), ("qa", .qa),
   ("security", .security), ("writer", .writer)]

/-- Python `dict.get` over an association list (first binding wins). -/
def AgentFactory.dict_get : List (String × AgentKey) → String → Option AgentKey
  | [], _ => none
  | (k, v) :: rest, key => if k = key then some v else AgentFactory.dict_get rest key

/-- Embeds `AgentFactory.create_agent`: looks up `role.lower()` in `agent_map`;
a hit yields the corresponding agent, a miss yields `None`. -/
def AgentFactory.create_agent (role : String) : Option AgentKey :=
  AgentFactory.dict_get AgentFactory.agent_map (pyLower role)

/-! ### Helper lemmas about the context dictionary -/

lemma ctxLookup_set_self (ctx : Ctx) (k : String) (v : PyObj) :
    ctxLookup (ctxSet ctx k v) k = some v := by
  induction ctx with
  | nil => simp [ctxSet, ctxLookup]
  | cons hd tl ih =>
      obtain ⟨k', v'⟩ := hd
      by_cases h : k' = k
      · subst h; simp [ctxSet, ctxLookup]
      · simp [ctxSet, ctxLookup, h, ih]

lemma ctxLookup_set_other (ctx : Ctx) {k k' : String} (v : PyObj) (h : k' ≠ k) :
    ctxLookup (ctxSet ctx k v) k' = ctxLookup ctx k' := by
  induction ctx with
  | nil => simp [ctxSet, ctxLookup, Ne.symm h]
  | cons hd tl ih =>
      obtain ⟨k'', v''⟩ := hd
      by_cases hk : k'' = k
      · subst hk
        simp [ctxSet, ctxLookup, Ne.symm h]
      · simp [ctxSet, ctxLookup, hk, ih]

lemma ctxGetD_set_self (ctx : Ctx) (k : String) (v d : PyObj) :
    ctxGetD (ctxSet ctx k v) k d = v := by
  simp [ctxGetD, ctxLookup_set_self]

lemma ctxGetD_set_other (ctx : Ctx) {k k' : String} (v d : PyObj) (h : k' ≠ k) :
    ctxGetD (ctxSet ctx k v) k' d = ctxGetD ctx k' d := by
  simp [ctxGetD, ctxLookup_set_other ctx v h]

lemma ctxGetD_of_lookup_none {ctx : Ctx} {k : String} (d : PyObj)
    (h : ctxLookup ctx k = none) : ctxGetD ctx k d = d := by
  simp [ctxGetD, h]

/-! ### Helper lemmas about task collection and `execute_phase` -/

lemma collect_tasks_total (gt : AgentKey → Ctx → List Task) (ctx : Ctx)
    (ks : List AgentKey) :
    ProjectCrew.collect_tasks (fun k c => .ok (gt k c)) ctx ks =
      .ok ((ks.map (fun k => gt k ctx)).flatten) := by
  induction ks with
  | nil => rfl
  | cons k rest ih => simp [ProjectCrew.collect_tasks, ih]

lemma collect_tasks_nil_of_all_nil {roster : Roster} {ctx : Ctx}
    {ks : List AgentKey} (h : ∀ k ∈ ks, roster k ctx = .ok []) :
    ProjectCrew.collect_tasks roster ctx ks = .ok [] := by
  induction ks with
  | nil => rfl
  | cons k rest ih =>
      have hk := h k (by simp)
      have hrest := ih (fun k' hk' => h k' (by simp [hk']))
      simp [ProjectCrew.collect_tasks, hk, hrest]

/-- The task batch a phase assembles from the default roster. -/
def phaseTasks (phase : ProjectPhase) (ctx : Ctx) : List Task :=
  ((ProjectCrew.get_phase_agents phase).map (fun k => defaultAgents k ctx)).flatten

lemma collect_tasks_default (ctx : Ctx) (phase : ProjectPhase) :
    ProjectCrew.collect_tasks defaultRoster ctx (ProjectCrew.get_phase_agents phase) =
      .ok (phaseTasks phase ctx) :=
  collect_tasks_total defaultAgents ctx (ProjectCrew.get_phase_agents phase)

lemma phaseTasks_ne_nil (phase : ProjectPhase) (ctx : Ctx) :
    phaseTasks phase ctx ≠ [] := by
  cases phase <;>
    simp [phaseTasks, ProjectCrew.get_phase_agents, defaultAgents,
      ArchitectAgent.get_tasks, BackendDeveloperAgent.get_tasks,
      FrontendDeveloperAgent.get_tasks, DatabaseEngineerAgent.get_tasks,
      DevOpsEngineerAgent.get_tasks, QAEngineerAgent.get_tasks,
      SecurityAnalystAgent.get_tasks, TechnicalWriterAgent.get_tasks]

lemma execute_phase_kick_ok {kick : Kickoff} {roster : Roster} (s : CrewState)
    (phase : ProjectPhase) {all_tasks : List Task} {result : PyObj}
    (hc : ProjectCrew.collect_tasks roster s.context
            (ProjectCrew.get_phase_agents phase) = .ok all_tasks)
    (hne : all_tasks ≠ [])
    (hk : kick (ProjectCrew.get_phase_agents phase) all_tasks = .ok result) :
    ProjectCrew.execute_phase kick roster s phase =
      .ok ({ phase := phase, status := "completed",
             outputs := [("result", result)], errors := [] },
           { context := ProjectCrew.update_context phase result s.context,
             results := s.results ++
               [{ phase := phase, status := "completed",
                  outputs := [("result", result)], errors := [] }] }) := by
  simp only [ProjectCrew.execute_phase]
  rw [hc]
  simp [hne, hk]

lemma execute_phase_kick_error {kick : Kickoff} {roster : Roster} (s : CrewState)
    (phase : ProjectPhase) {all_tasks : List Task} {e : String}
    (hc : ProjectCrew.collect_tasks roster s.context
            (ProjectCrew.get_phase_agents phase) = .ok all_tasks)
    (hne : all_tasks ≠ [])
    (hk : kick (ProjectCrew.get_phase_agents phase) all_tasks = .error e) :
    ProjectCrew.execute_phase kick roster s phase =
      .ok ({ phase := phase, status := "failed", outputs := [], errors := [e] },
           { context := s.context,
             results := s.results ++
               [{ phase := phase, status := "failed", outputs := [], errors := [e] }] }) := by
  simp only [ProjectCrew.execute_phase]
  rw [hc]
  simp [hne, hk]

lemma execute_phase_no_tasks {kick : Kickoff} {roster : Roster} (s : CrewState)
    (phase : ProjectPhase)
    (hc : ProjectCrew.collect_tasks roster s.context
            (ProjectCrew.get_phase_agents phase) = .ok []) :
    ProjectCrew.execute_phase kick roster s phase =
      .ok ({ phase := phase, status := "skipped", outputs := [],
             errors := ["No tasks defined for this phase"] }, s) := by
  simp only [ProjectCrew.execute_phase]
  rw [hc]
  simp

/-- With the default roster every phase appends exactly one result
(`completed` or `failed`), the loop visits the remaining phases in order,
and it breaks out exactly at the first `failed` result. -/
lemma run_phases_default (kick : Kickoff) (ps : List ProjectPhase) :
    ∀ s : CrewState,
      ∃ (new : List CrewResult) (s' : CrewState),
        ProjectCrew.run_phases kick defaultRoster s ps = .ok s' ∧
        s'.results = s.results ++ new ∧
        new.map CrewResult.phase = ps.take new.length ∧
        (∀ r ∈ new.dropLast, r.status ≠ "failed") ∧
        (new.length < ps.length → ∃ rl, new.getLast? = some rl ∧ rl.status = "failed") := by
  induction ps with
  | nil =>
      intro s
      exact ⟨[], s, rfl, by simp, by simp, by simp, by simp⟩
  | cons p rest ih =>
      intro s
      have hc := collect_tasks_default s.context p
      have hne := phaseTasks_ne_nil p s.context
      cases hk : kick (ProjectCrew.get_phase_agents p) (phaseTasks p s.context) with
      | error e =>
          have hep := execute_phase_kick_error s p hc hne hk
          refine ⟨[{ phase := p, status := "failed", outputs := [], errors := [e] }],
            { context := s.context,
              results := s.results ++
                [{ phase := p, status := "failed", outputs := [], errors := [e] }] },
            ?_, rfl, by simp, by simp, ?_⟩
          · simp only [ProjectCrew.run_phases]
            rw [hep]
            simp
          · intro _
            exact ⟨_, rfl, rfl⟩
      | ok result =>
          have hep := execute_phase_kick_ok s p hc hne hk
          set r : CrewResult :=
            { phase := p, status := "completed",
              outputs := [("result", result)], errors := [] } with hr
          obtain ⟨new', s', h1, h2, h3, h4, h5⟩ :=
            ih { context := ProjectCrew.update_context p result s.context,
                 results := s.results ++ [r] }
          refine ⟨r :: new', s', ?_, ?_, ?_, ?_, ?_⟩
          · simp only [ProjectCrew.run_phases]
            rw [hep]
            simpa using h1
          · simpa [List.append_assoc] using h2
          · simp [h3, List.take_succ_cons]
          · intro r' hr'
            match new', hr' with
            | [], hr' => simp at hr'
            | x :: xs, hr' =>
                rw [List.dropLast_cons₂] at hr'
                rcases List.mem_cons.mp hr' with h | h
                · subst h; simp [hr]
                · exact h4 r' h
          · intro hlen
            have hlen' : new'.length < rest.length := by
              simpa using hlen
            obtain ⟨rl, hrl, hrlf⟩ := h5 hlen'
            match new', hrl with
            | x :: xs, hrl =>
                exact ⟨rl, by rw [List.getLast?_cons_cons]; exact hrl, hrlf⟩

/-! ### Concrete oracles and rosters used as witnesses -/

/-- A stub execution layer that always succeeds with the string result `ok`. -/
def kickOk : Kickoff := fun _ _ => .ok (.pstr "ok")

/-- A stub execution layer that always raises `ConnectionError("timeout")`
(the orchestrator only sees the message `str(e) = "timeout"`). -/
def kickErr : Kickoff := fun _ _ => .error "timeout"

/-- A roster whose agents return empty task lists for every context. -/
def emptyTaskRoster : Roster := fun _ _ => .ok []

/-- A roster whose agents raise an exception from `get_tasks`. -/
def raisingRoster : Roster := fun _ _ => .error "boom"

/-- The `completed` result of the planning phase under `kickOk`. -/
def planningOkResult : CrewResult :=
  { phase := .planning, status := "completed",
    outputs := [("result", .pstr "ok")], errors := [] }

/-- The orchestrator state after a successful planning phase under `kickOk`
starting from an empty context: `api_spec` written, one result appended. -/
def planningOkState : CrewState :=
  { context := [("api_spec", .pstr "ok")], results := [planningOkResult] }

/-- The `failed` result of the planning phase under `kickErr`. -/
def failedTimeoutResult : CrewResult :=
  { phase := .planning, status := "failed", outputs := [], errors := ["timeout"] }

/-- The context keys each concrete agent reads via `context.get(key, default)`
together with the default used, as written in `development.py` and
`operations.py`. -/
def agentContextDefaults : AgentKey → List (String × PyObj)
  | .architect =>
      [("project_name", .pstr "Unknown Project"), ("requirements", .pdict [])]
  | .backend =>
      [("project_name", .pstr "Unknown Project"), ("architecture", .pdict []),
       ("api_spec", .pdict [])]
  | .frontend =>
      [("project_name", .pstr "Unknown Project"), ("design_spec", .pdict []),
       ("api_endpoints", .plist [])]
  | .database =>
      [("project_name", .pstr "Unknown Project"), ("data_model", .pdict [])]
  | .devops =>
      [("project_name", .pstr "Unknown Project"), ("architecture", .pdict [])]
  | .qa =>
      [("project_name", .pstr "Unknown Project"), ("requirements", .pdict [])]
  | .security =>
      [("project_name", .pstr "Unknown Project"), ("architecture", .pdict [])]
  | .writer =>
      [("project_name", .pstr "Unknown Project"), ("api_spec", .pdict [])]

/-- The number of tasks each concrete agent's `get_tasks` returns. -/
def agentTaskCount : AgentKey → Nat
  | .architect => 2
  | .backend => 2
  | .frontend => 2
  | .database => 2
  | .devops => 3
  | .qa => 3
  | .security => 3
  | .writer => 2

/-! ### Claim theorems -/

/-- C1: for every run of `execute_full_pipeline` on a fresh orchestrator
(with its concrete default roster, under any behaviour of the external
execution layer), the returned results list visits the canonical 6-phase
order as a prefix, no result after a `failed` one appears, a run shorter
than six phases ends in a `failed` result, and the loop's break condition
fires only on `failed` — a `skipped` result lets the iteration continue. -/
theorem C1_pipeline_prefix_halts_on_failed (kick : Kickoff) (ctx : Ctx) :
    ∃ (out : List CrewResult) (s : CrewState),
      ProjectCrew.execute_full_pipeline kick defaultRoster (freshCrew ctx) =
        .ok (out, s) ∧
      out.map CrewResult.phase = pipelinePhases.take out.length ∧
      (∀ r ∈ out.dropLast, r.status ≠ "failed") ∧
      (out.length < pipelinePhases.length →
        ∃ rl, out.getLast? = some rl ∧ rl.status = "failed") ∧
      (∀ (roster : Roster) (s0 : CrewState) (p : ProjectPhase)
         (ps : List ProjectPhase) (r : CrewResult) (s1 : CrewState),
         ProjectCrew.execute_phase kick roster s0 p = .ok (r, s1) →
         r.status = "skipped" →
         ProjectCrew.run_phases kick roster s0 (p :: ps) =
           ProjectCrew.run_phases kick roster s1 ps) := by
  obtain ⟨new, s', h1, h2, h3, h4, h5⟩ :=
    run_phases_default kick pipelinePhases (freshCrew ctx)
  have hres : s'.results = new := by simpa [freshCrew] using h2
  refine ⟨s'.results, s', ?_, ?_, ?_, ?_, ?_⟩
  · simp only [ProjectCrew.execute_full_pipeline]
    rw [h1]
  · rw [hres]
    exact h3
  · rw [hres]
    exact h4
  · rw [hres]
    exact h5
  · intro roster s0 p ps r s1 hep hst
    simp only [ProjectCrew.run_phases]
    rw [hep]
    simp [hst]

/-- C2 (counterexample): a call to `execute_phase` whose phase assembles an
empty task batch returns normally with status `skipped` while the results
log stays at length 0 — the call did not append a `CrewResult`, refuting
"appends exactly one CrewResult ... for every outcome". -/
theorem C2_counterexample_skipped_not_appended :
    (ProjectCrew.execute_phase kickOk emptyTaskRoster (freshCrew [])
        ProjectPhase.planning).toOption.map
      (fun rs => (rs.1.status, rs.2.results.length)) = some ("skipped", 0) := rfl

/-- C2 (amended): every normal return of `execute_phase` appends exactly one
`CrewResult` to the results log when the outcome is `completed` or `failed`
(so repeated calls are never deduplicated), but a `skipped` result is
returned early without being appended. -/
theorem C2_append_iff_not_skipped (kick : Kickoff) (roster : Roster)
    (s : CrewState) (phase : ProjectPhase) (r : CrewResult) (s' : CrewState)
    (h : ProjectCrew.execute_phase kick roster s phase = .ok (r, s')) :
    s'.results = s.results ++ (if r.status = "skipped" then [] else [r]) := by
  cases hc : ProjectCrew.collect_tasks roster s.context
      (ProjectCrew.get_phase_agents phase) with
  | error e =>
      have hbad : ProjectCrew.execute_phase kick roster s phase = .error (e, s) := by
        simp only [ProjectCrew.execute_phase]
        rw [hc]
      rw [hbad] at h
      cases h
  | ok all_tasks =>
      by_cases hne : all_tasks = []
      · subst hne
        rw [execute_phase_no_tasks s phase hc] at h
        simp only [Except.ok.injEq, Prod.mk.injEq] at h
        obtain ⟨rfl, rfl⟩ := h
        simp
      · cases hk : kick (ProjectCrew.get_phase_agents phase) all_tasks with
        | ok result =>
            rw [execute_phase_kick_ok s phase hc hne hk] at h
            simp only [Except.ok.injEq, Prod.mk.injEq] at h
            obtain ⟨rfl, rfl⟩ := h
            simp
        | error e =>
            rw [execute_phase_kick_error s phase hc hne hk] at h
            simp only [Except.ok.injEq, Prod.mk.injEq] at h
            obtain ⟨rfl, rfl⟩ := h
            simp

/-- C2 (witness): the amended statement applied to a concrete successful
planning-phase call: the log grows from empty to exactly one entry. -/
theorem C2_witness_append :
    planningOkState.results = (freshCrew []).results ++
      (if planningOkResult.status = "skipped" then [] else [planningOkResult]) :=
  C2_append_iff_not_skipped kickOk defaultRoster (freshCrew [])
    ProjectPhase.planning planningOkResult planningOkState (by rfl)

/-- C3: on a successful batch execution, `execute_phase` returns a
`completed` result whose outputs are exactly `{"result": <raw result>}` with
an empty error list, and the context update is the narrow whitelist: the
`architecture` phase writes exactly the key `architecture`, the `planning`
phase writes exactly `api_spec`, every other phase leaves the context
untouched. -/
theorem C3_success_result_and_context_whitelist (kick : Kickoff)
    (roster : Roster) (s : CrewState) (phase : ProjectPhase)
    (all_tasks : List Task) (result : PyObj)
    (hc : ProjectCrew.collect_tasks roster s.context
            (ProjectCrew.get_phase_agents phase) = .ok all_tasks)
    (hne : all_tasks ≠ [])
    (hk : kick (ProjectCrew.get_phase_agents phase) all_tasks = .ok result) :
    ProjectCrew.execute_phase kick roster s phase =
      .ok ({ phase := phase, status := "completed",
             outputs := [("result", result)], errors := [] },
           { context :=
               if phase = .architecture then ctxSet s.context "architecture" result
               else if phase = .planning then ctxSet s.context "api_spec" result
               else s.context,
             results := s.results ++
               [{ phase := phase, status := "completed",
                  outputs := [("result", result)], errors := [] }] }) := by
  rw [execute_phase_kick_ok s phase hc hne hk]
  rfl

/-- C3 (witness): the planning phase with the default roster and a stub
execution layer returning the string `ok`: result `completed` with outputs
`{"result": "ok"}`, and `api_spec` written into the context. -/
theorem C3_witness_planning_success :
    (ArchitectAgent.get_tasks [] ++ [] ≠ []) ∧
    ProjectCrew.execute_phase kickOk defaultRoster (freshCrew [])
        ProjectPhase.planning = .ok (planningOkResult, planningOkState) := by
  have hne : ArchitectAgent.get_tasks [] ++ [] ≠ [] := by
    simp [ArchitectAgent.get_tasks]
  exact ⟨hne, C3_success_result_and_context_whitelist kickOk defaultRoster
    (freshCrew []) ProjectPhase.planning _ (.pstr "ok") rfl hne rfl⟩

/-- C4: for every phase, an exception raised by the batch execution is
caught and converted into a normal return (`Except.ok`, i.e. nothing
escapes `execute_phase`) carrying a `failed` result with empty outputs and
the exception message as the sole error entry. -/
theorem C4_kickoff_exception_captured (kick : Kickoff) (roster : Roster)
    (s : CrewState) (phase : ProjectPhase) (all_tasks : List Task) (e : String)
    (hc : ProjectCrew.collect_tasks roster s.context
            (ProjectCrew.get_phase_agents phase) = .ok all_tasks)
    (hne : all_tasks ≠ [])
    (hk : kick (ProjectCrew.get_phase_agents phase) all_tasks = .error e) :
    ProjectCrew.execute_phase kick roster s phase =
      .ok ({ phase := phase, status := "failed", outputs := [], errors := [e] },
           { context := s.context,
             results := s.results ++
               [{ phase := phase, status := "failed", outputs := [],
                  errors := [e] }] }) :=
  execute_phase_kick_error s phase hc hne hk

/-- C4 (witness): a stub execution layer raising `timeout` on the planning
phase yields the `failed` result with errors `["timeout"]`..-/
theorem C4_witness_timeout :
    (ArchitectAgent.get_tasks [] ++ [] ≠ []) ∧
    ProjectCrew.execute_phase kickErr defaultRoster (freshCrew [])
        ProjectPhase.planning =
      .ok (failedTimeoutResult,
           { context := [], results := [failedTimeoutResult] }) := by
  have hne : ArchitectAgent.get_tasks [] ++ [] ≠ [] := by
    simp [ArchitectAgent.get_tasks]
  exact ⟨hne, C4_kickoff_exception_captured kickErr defaultRoster
    (freshCrew []) ProjectPhase.planning _ "timeout" rfl hne rfl⟩

/-- C5: if every agent of a phase produces an empty task list for the
current context, `execute_phase` returns status `skipped` with the
non-empty error list `["No tasks defined for this phase"]` and the
orchestrator state — in particular the context mapping — is exactly the
state before the call. -/
theorem C5_empty_tasks_skipped_context_unchanged (kick : Kickoff)
    (roster : Roster) (s : CrewState) (phase : ProjectPhase)
    (h : ∀ k ∈ ProjectCrew.get_phase_agents phase, roster k s.context = .ok []) :
    ProjectCrew.execute_phase kick roster s phase =
      .ok ({ phase := phase, status := "skipped", outputs := [],
             errors := ["No tasks defined for this phase"] }, s) ∧
    (["No tasks defined for this phase"] : List String) ≠ [] :=
  ⟨execute_phase_no_tasks s phase (collect_tasks_nil_of_all_nil h), by simp⟩

/-- C5 (witness): a roster of agents that always return empty task lists,
on the development phase with a non-empty context. -/
theorem C5_witness_skipped :
    ProjectCrew.execute_phase kickOk emptyTaskRoster
        (freshCrew [("project_name", PyObj.pstr "Acme")])
        ProjectPhase.development =
      .ok ({ phase := .development, status := "skipped", outputs := [],
             errors := ["No tasks defined for this phase"] },
           freshCrew [("project_name", PyObj.pstr "Acme")]) ∧
    (["No tasks defined for this phase"] : List String) ≠ [] :=
  C5_empty_tasks_skipped_context_unchanged kickOk emptyTaskRoster
    (freshCrew [("project_name", PyObj.pstr "Acme")]) ProjectPhase.development
    (fun _ _ => rfl)

/-- C6: the resolved agent set of every phase equals the fixed table of
`_get_phase_agents`, and for task generators that return normally the
phase's batch is the concatenation of each agent's task list in table
order, preserving per-agent task order. -/
theorem C6_phase_table_and_batch_concat :
    ProjectCrew.get_phase_agents .planning = [.architect] ∧
    ProjectCrew.get_phase_agents .architecture = [.architect, .database, .security] ∧
    ProjectCrew.get_phase_agents .development = [.backend, .frontend, .database] ∧
    ProjectCrew.get_phase_agents .testing = [.qa, .security] ∧
    ProjectCrew.get_phase_agents .deployment = [.devops] ∧
    ProjectCrew.get_phase_agents .documentation = [.writer] ∧
    ∀ (gt : AgentKey → Ctx → List Task) (ctx : Ctx) (phase : ProjectPhase),
      ProjectCrew.collect_tasks (fun k c => .ok (gt k c)) ctx
          (ProjectCrew.get_phase_agents phase) =
        .ok (((ProjectCrew.get_phase_agents phase).map (fun k => gt k ctx)).flatten) :=
  ⟨rfl, rfl, rfl, rfl, rfl, rfl,
   fun gt ctx phase => collect_tasks_total gt ctx (ProjectCrew.get_phase_agents phase)⟩

/-- C7: task generation is total for every concrete agent (it is a Lean
function, so it never fails), always returns the documented number of
tasks, and for every context key an agent reads, a missing key behaves
exactly as if the documented placeholder default were present — templates
substitute the placeholder instead of failing. -/
theorem C7_get_tasks_totality_and_defaults :
    ∀ (k : AgentKey) (ctx : Ctx),
      (defaultAgents k ctx).length = agentTaskCount k ∧
      ∀ key d, (key, d) ∈ agentContextDefaults k → ctxLookup ctx key = none →
        defaultAgents k ctx = defaultAgents k (ctxSet ctx key d) := by
  intro k ctx
  refine ⟨by cases k <;> rfl, ?_⟩
  intro key d hmem hnone
  cases k with
  | architect =>
      simp only [agentContextDefaults, List.mem_cons, List.not_mem_nil,
        or_false, Prod.mk.injEq] at hmem
      rcases hmem with ⟨rfl, rfl⟩ | ⟨rfl, rfl⟩ <;>
        simp [defaultAgents, ArchitectAgent.get_tasks, ctxGetD,
          ctxLookup_set_self, ctxLookup_set_other, hnone]
  | backend =>
      simp only [agentContextDefaults, List.mem_cons, List.not_mem_nil,
        or_false, Prod.mk.injEq] at hmem
      rcases hmem with ⟨rfl, rfl⟩ | ⟨rfl, rfl⟩ | ⟨rfl, rfl⟩ <;>
        simp [defaultAgents, BackendDeveloperAgent.get_tasks, ctxGetD,
          ctxLookup_set_self, ctxLookup_set_other, hnone]
  | frontend =>
      simp only [agentContextDefaults, List.mem_cons, List.not_mem_nil,
        or_false, Prod.mk.injEq] at hmem
      rcases hmem with ⟨rfl, rfl⟩ | ⟨rfl, rfl⟩ | ⟨rfl, rfl⟩ <;>
        simp [defaultAgents, FrontendDeveloperAgent.get_tasks, ctxGetD,
          ctxLookup_set_self, ctxLookup_set_other, hnone]
  | database =>
      simp only [agentContextDefaults, List.mem_cons, List.not_mem_nil,
        or_false, Prod.mk.injEq] at hmem
      rcases hmem with ⟨rfl, rfl⟩ | ⟨rfl, rfl⟩ <;>
        simp [defaultAgents, DatabaseEngineerAgent.get_tasks, ctxGetD,
          ctxLookup_set_self, ctxLookup_set_other, hnone]
  | devops =>
      simp only [agentContextDefaults, List.mem_cons, List.not_mem_nil,
        or_false, Prod.mk.injEq] at hmem
      rcases hmem with ⟨rfl, rfl⟩ | ⟨rfl, rfl⟩ <;>
        simp [defaultAgents, DevOpsEngineerAgent.get_tasks, ctxGetD,
          ctxLookup_set_self, ctxLookup_set_other, hnone]
  | qa =>
      simp only [agentContextDefaults, List.mem_cons, List.not_mem_nil,
        or_false, Prod.mk.injEq] at hmem
      rcases hmem with ⟨rfl, rfl⟩ | ⟨rfl, rfl⟩ <;>
        simp [defaultAgents, QAEngineerAgent.get_tasks, ctxGetD,
          ctxLookup_set_self, ctxLookup_set_other, hnone]
  | security =>
      simp only [agentContextDefaults, List.mem_cons, List.not_mem_nil,
        or_false, Prod.mk.injEq] at hmem
      rcases hmem with ⟨rfl, rfl⟩ | ⟨rfl, rfl⟩ <;>
        simp [defaultAgents, SecurityAnalystAgent.get_tasks, ctxGetD,
          ctxLookup_set_self, ctxLookup_set_other, hnone]
  | writer =>
      simp only [agentContextDefaults, List.mem_cons, List.not_mem_nil,
        or_false, Prod.mk.injEq] at hmem
      rcases hmem with ⟨rfl, rfl⟩ | ⟨rfl, rfl⟩ <;>
        simp [defaultAgents, TechnicalWriterAgent.get_tasks, ctxGetD,
          ctxLookup_set_self, ctxLookup_set_other, hnone]

/-- C7 (witness): the architect agent on the empty context behaves exactly
as if `project_name` were bound to the placeholder `Unknown Project`. -/
theorem C7_witness_defaults :
    (("project_name", PyObj.pstr "Unknown Project") ∈
        agentContextDefaults .architect) ∧
    ctxLookup [] "project_name" = none ∧
    defaultAgents .architect [] =
      defaultAgents .architect
        (ctxSet [] "project_name" (PyObj.pstr "Unknown Project")) := by
  refine ⟨List.mem_cons_self _ _, rfl, ?_⟩
  exact (C7_get_tasks_totality_and_defaults .architect []).2 "project_name" _
    (List.mem_cons_self _ _) rfl

/-- C8: `AgentFactory.create_agent` is case-insensitive (role strings equal
after lowering get equal results) and total — a role whose lowering matches
none of the eight `agent_map` keys yields `none` instead of raising. -/
theorem C8_create_agent_case_insensitive_unknown_none :
    (∀ r1 r2 : String, pyLower r1 = pyLower r2 →
       AgentFactory.create_agent r1 = AgentFactory.create_agent r2) ∧
    (∀ role : String, (∀ p ∈ AgentFactory.agent_map, pyLower role ≠ p.1) →
       AgentFactory.create_agent role = none) := by
  constructor
  · intro r1 r2 h
    simp [AgentFactory.create_agent, h]
  · intro role h
    have hgen : ∀ ks : List (String × AgentKey),
        (∀ p ∈ ks, pyLower role ≠ p.1) →
        AgentFactory.dict_get ks (pyLower role) = none := by
      intro ks
      induction ks with
      | nil => intro _; rfl
      | cons p rest ih =>
          intro hh
          obtain ⟨k, v⟩ := p
          have h1 : pyLower role ≠ k := hh (k, v) (by simp)
          simp only [AgentFactory.dict_get, if_neg (Ne.symm h1)]
          exact ih (fun q hq => hh q (by simp [hq]))
    exact hgen AgentFactory.agent_map h

/-- C8 (witness): mixed-case known role resolves like its lowercase form,
and the unknown role `manager` yields `none`. -/
theorem C8_witness_lookup :
    AgentFactory.create_agent "ARCHITECT" = AgentFactory.create_agent "Architect" ∧
    AgentFactory.create_agent "manager" = none := by
  constructor
  · exact C8_create_agent_case_insensitive_unknown_none.1 "ARCHITECT" "Architect"
      (by decide)
  · exact C8_create_agent_case_insensitive_unknown_none.2 "manager" (by decide)

/-- C9: when the batch execution raises, `execute_phase` returns the
`failed` result and the context mapping of the resulting state is exactly
the context before the call — the merge step runs only on success, so a
failed phase is atomic with respect to the context. -/
theorem C9_failed_kickoff_context_unchanged (kick : Kickoff) (roster : Roster)
    (s : CrewState) (phase : ProjectPhase) (all_tasks : List Task) (e : String)
    (hc : ProjectCrew.collect_tasks roster s.context
            (ProjectCrew.get_phase_agents phase) = .ok all_tasks)
    (hne : all_tasks ≠ [])
    (hk : kick (ProjectCrew.get_phase_agents phase) all_tasks = .error e) :
    (ProjectCrew.execute_phase kick roster s phase).toOption.map
        (fun rs => (rs.1, rs.2.context)) =
      some ({ phase := phase, status := "failed", outputs := [], errors := [e] },
            s.context) := by
  rw [execute_phase_kick_error s phase hc hne hk]
  rfl

/-- C9 (witness): a raising execution layer on the planning phase with a
non-empty initial context leaves the context exactly unchanged. -/
theorem C9_witness_context :
    (ArchitectAgent.get_tasks [("project_name", PyObj.pstr "Acme")] ++ [] ≠ []) ∧
    (ProjectCrew.execute_phase kickErr defaultRoster
        (freshCrew [("project_name", PyObj.pstr "Acme")])
        ProjectPhase.planning).toOption.map
      (fun rs => (rs.1, rs.2.context)) =
      some (failedTimeoutResult, [("project_name", PyObj.pstr "Acme")]) := by
  have hne : ArchitectAgent.get_tasks [("project_name", PyObj.pstr "Acme")] ++ [] ≠ [] := by
    simp [ArchitectAgent.get_tasks]
  exact ⟨hne, C9_failed_kickoff_context_unchanged kickErr defaultRoster
    (freshCrew [("project_name", PyObj.pstr "Acme")]) ProjectPhase.planning _
    "timeout" rfl hne rfl⟩

/-- C10: an exception raised by an agent's task generation (here: the
planning phase's architect) is not caught — it escapes `execute_phase` and
therefore `execute_full_pipeline`, and the orchestrator state at unwind
time is the unmodified input state: no `CrewResult` was appended. -/
theorem C10_get_tasks_exception_propagates (kick : Kickoff) (roster : Roster)
    (ctx : Ctx) (e : String) (h : roster .architect ctx = .error e) :
    ProjectCrew.execute_phase kick roster (freshCrew ctx) .planning =
      .error (e, freshCrew ctx) ∧
    ProjectCrew.execute_full_pipeline kick roster (freshCrew ctx) =
      .error (e, freshCrew ctx) := by
  have hc : ProjectCrew.collect_tasks roster (freshCrew ctx).context
      (ProjectCrew.get_phase_agents .planning) = .error e := by
    simp [ProjectCrew.collect_tasks, ProjectCrew.get_phase_agents, freshCrew, h]
  have hep : ProjectCrew.execute_phase kick roster (freshCrew ctx) .planning =
      .error (e, freshCrew ctx) := by
    simp only [ProjectCrew.execute_phase]
    rw [hc]
  refine ⟨hep, ?_⟩
  have hrun : ProjectCrew.run_phases kick roster (freshCrew ctx) pipelinePhases =
      .error (e, freshCrew ctx) := by
    simp only [pipelinePhases, ProjectCrew.run_phases]
    rw [hep]
  simp only [ProjectCrew.execute_full_pipeline]
  rw [hrun]

/-- C10 (witness): a roster raising `boom` from `get_tasks` makes both
`execute_phase` and `execute_full_pipeline` raise with the log untouched. -/
theorem C10_witness_propagation :
    raisingRoster .architect [] = .error "boom" ∧
    ProjectCrew.execute_phase kickOk raisingRoster (freshCrew []) .planning =
      .error ("boom", freshCrew []) ∧
    ProjectCrew.execute_full_pipeline kickOk raisingRoster (freshCrew []) =
      .error ("boom", freshCrew []) :=
  ⟨rfl, (C10_get_tasks_exception_propagates kickOk raisingRoster [] "boom" rfl).1,
    (C10_get_tasks_exception_propagates kickOk raisingRoster [] "boom" rfl).2⟩

end AISF
